import Mathlib

/-!
Shallow embedding of `src/iqua_softener/iqua.py` (class `IquaSoftener`):
the token store, the authenticator (`_login`, `_refresh_token`), the session
gate (`_is_token_expired`, `_ensure_authenticated`), the request pipeline
(`_request`), device-id resolution (`_get_device_id`), the valve command
(`set_water_shutoff_valve`) and token persistence (`save_tokens`,
`load_tokens`).

Modelling decisions, each traceable to the source:
* Machine state `ClientState` mirrors the instance attributes set in
  `__init__` (lines 69-78).  The `requests.Session` object and its default
  headers are not modelled: no claim mentions them.
* The network is an oracle: a list of pending `NetResult`s consumed in
  order, one per HTTP transport call; each call is also appended to a
  `trace`, so "zero network calls" is `trace` unchanged.  A transport
  exception (`requests.exceptions.RequestException`) is `NetResult.exc`.
* Response bodies arrive already parsed: `Response` carries the fields the
  code reads (`data.get("access_token")` etc., `data.get("data", [])`).
* PyJWT decoding is an oracle `jd : String -> JwtResult`:
  `decodeError` covers `jwt.decode` raising (including a `None` token) and
  `int(exp)` failing - both land in `except Exception` (line 291);
  `payload exp?` is a successful decode with `decoded.get("exp")` as Lean
  `Option Int`.  `if exp:` (line 289) is falsy for both `None` and `0`.
* Python truthiness of an optional string (`if not self._access_token`,
  `if self._refresh_token`, ...) is `truthyStr`: `none` and `some ""` are
  falsy.  `is not None` checks (line 251) match on the `Option` instead.
* CRITICAL source fact (faithfully embedded, not repaired): the instance
  attribute `self._refresh_token` assigned in `__init__` (line 75) and in
  `_set_tokens` (line 284) shadows the method `_refresh_token` defined at
  line 328, because instance `__dict__` entries take precedence over class
  functions.  Hence `self._refresh_token()` at lines 353 and 373 calls a
  `str` or `None` value and raises `TypeError`, which is not an
  `IquaSoftenerException` and so escapes both `except IquaSoftenerException`
  handlers.  `callRefreshAttr` models the call sites; the method body
  itself (lines 328-346) is `refresh_token_method`.
* `Response.raise_for_status` raises exactly for statuses 400-599.
* Exceptions are the explicit `Except PyError` monad; `time.time()` is an
  integer parameter `now`.
-/

/-- Python truthiness of an optional string: `None` and `""` are falsy. -/
def truthyStr : Option String → Bool
  | none => false
  | some s => s ≠ ""

/-- Result of `jwt.decode(access_token, options={"verify_signature": False})`
followed by `decoded.get("exp")`: `decodeError` when `jwt.decode` (or the
later `int(exp)`) raises, otherwise the optional numeric `exp` claim. -/
inductive JwtResult where
  | decodeError : JwtResult
  | payload : Option Int → JwtResult
deriving DecidableEq

/-- One entry of the `GET /devices` listing, restricted to the fields the
code reads: `device["id"]` and
`device.get("properties", {}).get("serial_number", {}).get("value")`. -/
structure Device where
  id : String
  serial_number_value : Option String
deriving DecidableEq

/-- A parsed HTTP response: status code, raw text, and the body fields the
code extracts (`data.get("access_token")`, `data.get("refresh_token")`,
`data.get("user_id")`, `data.get("data", [])`). -/
structure Response where
  status : Nat
  text : String
  access_token_field : Option String
  refresh_token_field : Option String
  user_id_field : Option String
  devices : List Device
deriving DecidableEq

/-- Outcome of one transport call: a response, or a raised
`requests.exceptions.RequestException` with its message. -/
inductive NetResult where
  | ok : Response → NetResult
  | exc : String → NetResult
deriving DecidableEq

/-- The JSON body of a `PUT /devices/{id}/command` call. -/
structure Payload where
  function : String
  action : String
deriving DecidableEq

/-- A record of one transport call, for counting and inspecting traffic:
the login POST (with credentials), the refresh POST (with the refresh
token), or a generic `session.request` (method, resolved url, json body). -/
inductive NetCall where
  | loginPost : String → String → NetCall
  | refreshPost : String → NetCall
  | httpReq : String → String → Option Payload → NetCall
deriving DecidableEq

/-- The Python exceptions the embedded code can raise. -/
inductive PyError where
  | iqua : String → PyError
  | typeErr : String → PyError
  | valueErr : String → PyError
  | httpStatusErr : Nat → String → PyError
  | requestsExc : String → PyError
deriving DecidableEq

/-- The instance attributes of `IquaSoftener` set in `__init__`
(lines 69-78), minus the unmodelled `requests.Session`. -/
structure ClientState where
  username : String
  password : String
  device_serial_number : String
  api_base_url : String
  access_token : Option String
  refresh_token : Option String
  user_id : Option String
  access_expires_at : Option Int
  device_id : Option String
deriving DecidableEq

/-- A client plus its environment: the pending transport results and the
trace of transport calls made so far. -/
structure St where
  cs : ClientState
  env : List NetResult
  trace : List NetCall
deriving DecidableEq

/-- Perform one transport call: record it in the trace and consume the next
pending result (an exhausted oracle acts as a transport exception). -/
def netCall (c : NetCall) (st : St) : NetResult × St :=
  match st.env with
  | [] => (NetResult.exc "no response", { st with trace := st.trace ++ [c] })
  | r :: rest => (r, { st with env := rest, trace := st.trace ++ [c] })

/-- Char-list test that the second list begins with the first. -/
def starts_with_chars : List Char → List Char → Bool
  | [], _ => true
  | _ :: _, [] => false
  | p :: ps, c :: cs => (p = c) && starts_with_chars ps cs

/-- `str.startswith(pre)`, computably on the character lists. -/
def py_startswith (s pre : String) : Bool :=
  starts_with_chars pre.toList s.toList

/-- `str.lstrip("/")`: drop every leading slash. -/
def lstripSlash (s : String) : String :=
  String.mk (s.toList.dropWhile (fun c => c = '/'))

/-- `str.rstrip("/")`: drop every trailing slash. -/
def rstripSlash (s : String) : String :=
  String.mk ((s.toList.reverse.dropWhile (fun c => c = '/')).reverse)

/-- URL resolution in `_request` (lines 364-368): absolute URLs pass
through, relative paths are joined to the base with exactly one slash. -/
def resolve_url (base path : String) : String :=
  if py_startswith path "http" then path
  else rstripSlash base ++ "/" ++ lstripSlash path

/-- `_set_tokens` (lines 281-298): store both tokens, then derive the
expiry from the decoded `exp` claim minus 60 when the claim is present and
truthy; clear it when decoding raises; leave it untouched when the decode
succeeds but `exp` is absent or falsy.  (The session-header update on
lines 294-298 is not modelled.) -/
def set_tokens (jd : String → JwtResult) (tok rtok : Option String)
    (s : ClientState) : ClientState :=
  let s1 := { s with access_token := tok, refresh_token := rtok }
  match tok with
  | none => { s1 with access_expires_at := none }
  | some t =>
    match jd t with
    | JwtResult.decodeError => { s1 with access_expires_at := none }
    | JwtResult.payload none => s1
    | JwtResult.payload (some e) =>
      if e = 0 then s1 else { s1 with access_expires_at := some (e - 60) }

/-- `_is_token_expired` (lines 300-306): a falsy access token is expired;
an unknown expiry is never expired; otherwise `time.time() >= expiry`. -/
def is_token_expired (now : Int) (s : ClientState) : Bool :=
  if truthyStr s.access_token = false then true
  else
    match s.access_expires_at with
    | none => false
    | some e => now ≥ e

/-- `_login` (lines 308-326): POST credentials; transport failure, 401 and
other non-200 each raise `IquaSoftenerException`; on 200 store the tokens
and the user id and return the body. -/
def login (jd : String → JwtResult) (st : St) : Except PyError Response × St :=
  let (res, st1) := netCall (NetCall.loginPost st.cs.username st.cs.password) st
  match res with
  | NetResult.exc m =>
    (Except.error (PyError.iqua ("Exception on login request (" ++ m ++ ")")), st1)
  | NetResult.ok r =>
    if r.status = 401 then
      (Except.error (PyError.iqua ("Authentication error (" ++ r.text ++ ")")), st1)
    else if r.status ≠ 200 then
      (Except.error (PyError.iqua ("Login failed: " ++ toString r.status ++ " " ++ r.text)), st1)
    else
      let s2 := set_tokens jd r.access_token_field r.refresh_token_field st1.cs
      (Except.ok r, { st1 with cs := { s2 with user_id := r.user_id_field } })

/-- The body of method `_refresh_token` (lines 328-346): a falsy refresh
token raises before any network traffic; otherwise POST it; transport
failure and non-200 raise `IquaSoftenerException`; on 200 store the new
tokens and return the body. -/
def refresh_token_method (jd : String → JwtResult) (st : St) :
    Except PyError Response × St :=
  if truthyStr st.cs.refresh_token then
    let (res, st1) := netCall (NetCall.refreshPost (st.cs.refresh_token.getD "")) st
    match res with
    | NetResult.exc m =>
      (Except.error (PyError.iqua ("Exception on token refresh (" ++ m ++ ")")), st1)
    | NetResult.ok r =>
      if r.status ≠ 200 then
        (Except.error (PyError.iqua ("Refresh failed: " ++ toString r.status ++ " " ++ r.text)), st1)
      else
        (Except.ok r, { st1 with cs := set_tokens jd r.access_token_field r.refresh_token_field st1.cs })
  else
    (Except.error (PyError.iqua "No refresh token available"), st)

/-- What the CALL `self._refresh_token()` (lines 353 and 373) actually does:
the instance attribute `_refresh_token` (a `str` or `None`) shadows the
method of the same name, so the call raises `TypeError` without touching
the network or the state. -/
def callRefreshAttr (st : St) : Except PyError Response × St :=
  match st.cs.refresh_token with
  | none => (Except.error (PyError.typeErr "NoneType object is not callable"), st)
  | some _ => (Except.error (PyError.typeErr "str object is not callable"), st)

/-- `_ensure_authenticated` (lines 348-357): when the token is expired, try
`self._refresh_token()` if the attribute is truthy, else `self._login()`;
an `IquaSoftenerException` from either is caught and answered with one more
`self._login()`; any other exception propagates. -/
def ensure_authenticated (jd : String → JwtResult) (now : Int) (st : St) :
    Except PyError Unit × St :=
  if is_token_expired now st.cs then
    let (r1, st1) :=
      if truthyStr st.cs.refresh_token then callRefreshAttr st
      else login jd st
    match r1 with
    | Except.ok _ => (Except.ok (), st1)
    | Except.error (PyError.iqua _) =>
      let (r2, st2) := login jd st1
      match r2 with
      | Except.ok _ => (Except.ok (), st2)
      | Except.error e => (Except.error e, st2)
    | Except.error e => (Except.error e, st1)
  else (Except.ok (), st)

/-- The tail of `_request` (lines 379-381): `r.raise_for_status()` is only
reached for non-200 and only raises for statuses 400-599; every other
response is returned as-is. -/
def check_status (r : Response) (st : St) : Except PyError Response × St :=
  if r.status ≠ 200 then
    if 400 ≤ r.status ∧ r.status ≤ 599 then
      (Except.error (PyError.httpStatusErr r.status r.text), st)
    else (Except.ok r, st)
  else (Except.ok r, st)

/-- `_request` (lines 359-381): authenticate, resolve the url, issue the
call; on a 401 with a truthy refresh-token attribute run the recovery
block (`self._refresh_token()` - which in fact raises `TypeError` - with an
`except IquaSoftenerException: self._login()` fallback, then one retry);
finally `raise_for_status` on non-200. -/
def request (jd : String → JwtResult) (now : Int) (method path : String)
    (body : Option Payload) (st : St) : Except PyError Response × St :=
  match ensure_authenticated jd now st with
  | (Except.error e, st1) => (Except.error e, st1)
  | (Except.ok _, st1) =>
    let url := resolve_url st1.cs.api_base_url path
    let (res, st2) := netCall (NetCall.httpReq method url body) st1
    match res with
    | NetResult.exc m => (Except.error (PyError.requestsExc m), st2)
    | NetResult.ok r =>
      if r.status = 401 ∧ truthyStr st2.cs.refresh_token then
        match callRefreshAttr st2 with
        | (Except.ok _, st3) =>
          let (res2, st4) := netCall (NetCall.httpReq method url body) st3
          match res2 with
          | NetResult.exc m => (Except.error (PyError.requestsExc m), st4)
          | NetResult.ok r2 => check_status r2 st4
        | (Except.error (PyError.iqua _), st3) =>
          match login jd st3 with
          | (Except.error e, st4) => (Except.error e, st4)
          | (Except.ok _, st4) =>
            let (res2, st5) := netCall (NetCall.httpReq method url body) st4
            match res2 with
            | NetResult.exc m => (Except.error (PyError.requestsExc m), st5)
            | NetResult.ok r2 => check_status r2 st5
        | (Except.error e, st3) => (Except.error e, st3)
      else check_status r st2

/-- `_get_devices` (lines 270-274): `GET /devices`, return
`data.get("data", [])`. -/
def get_devices (jd : String → JwtResult) (now : Int) (st : St) :
    Except PyError (List Device) × St :=
  match request jd now "GET" "/devices" none st with
  | (Except.error e, st1) => (Except.error e, st1)
  | (Except.ok r, st1) => (Except.ok r.devices, st1)

/-- `_get_device_id` (lines 249-268): answer from the cache when it `is not
None`; otherwise list the devices, return and cache the id of the first
device whose `properties.serial_number.value` equals the configured serial,
and raise `IquaSoftenerException` when none matches. -/
def get_device_id (jd : String → JwtResult) (now : Int) (st : St) :
    Except PyError String × St :=
  match st.cs.device_id with
  | some d => (Except.ok d, st)
  | none =>
    match get_devices jd now st with
    | (Except.error e, st1) => (Except.error e, st1)
    | (Except.ok devs, st1) =>
      match devs.find? (fun dv => dv.serial_number_value = some st1.cs.device_serial_number) with
      | some dv =>
        (Except.ok dv.id, { st1 with cs := { st1.cs with device_id := some dv.id } })
      | none =>
        (Except.error (PyError.iqua ("Device with serial number " ++ st1.cs.device_serial_number ++ " not found")), st1)

/-- `set_water_shutoff_valve` (lines 146-165): reject any state outside
`{0, 1}` with `ValueError` before anything else; otherwise resolve the
device id and PUT `{"function": "water_shutoff_valve", "action": "close"}`
for `1`, `"open"` for `0`; a non-200 answer raises
`IquaSoftenerException`. -/
def set_water_shutoff_valve (jd : String → JwtResult) (now : Int)
    (state : Int) (st : St) : Except PyError Response × St :=
  if state ≠ 0 ∧ state ≠ 1 then
    (Except.error (PyError.valueErr "Invalid state for water shut off valve (should be 0 or 1)."), st)
  else
    match get_device_id jd now st with
    | (Except.error e, st1) => (Except.error e, st1)
    | (Except.ok did, st1) =>
      let action := if state = 1 then "close" else "open"
      let payload : Payload := { function := "water_shutoff_valve", action := action }
      match request jd now "PUT" ("/devices/" ++ did ++ "/command") (some payload) st1 with
      | (Except.error e, st2) => (Except.error e, st2)
      | (Except.ok r, st2) =>
        if r.status ≠ 200 then
          (Except.error (PyError.iqua ("Invalid status (" ++ toString r.status ++ ") for set water shutoff valve request")), st2)
        else (Except.ok r, st2)

/-- The persisted token blob of `save_tokens` / `load_tokens`: each field
is `none` when the JSON key is missing, `some v` when the key is present
with value `v` (itself possibly `null`). -/
structure TokenBlob where
  access_token_entry : Option (Option String)
  refresh_token_entry : Option (Option String)
  user_id_entry : Option (Option String)
  access_expires_at_entry : Option (Option Int)
deriving DecidableEq

/-- `dict.get(key)`: `None` for a missing key, the stored value otherwise. -/
def blob_get {α : Type} : Option (Option α) → Option α
  | none => none
  | some v => v

/-- The blob `save_tokens` (lines 225-236) writes: all four keys present,
holding the current field values. -/
def save_tokens_blob (s : ClientState) : TokenBlob :=
  { access_token_entry := some s.access_token
    refresh_token_entry := some s.refresh_token
    user_id_entry := some s.user_id
    access_expires_at_entry := some s.access_expires_at }

/-- The field updates of `load_tokens` (lines 244-247): overwrite all four
fields with `data.get(...)`. -/
def load_tokens_blob (b : TokenBlob) (s : ClientState) : ClientState :=
  { s with
    access_token := blob_get b.access_token_entry
    refresh_token := blob_get b.refresh_token_entry
    user_id := blob_get b.user_id_entry
    access_expires_at := blob_get b.access_expires_at_entry }

/-- `save_tokens` (lines 225-236) over a filesystem modelled as a map from
paths to parsed blobs. -/
def save_tokens (fs : String → Option TokenBlob) (path : String)
    (s : ClientState) : String → Option TokenBlob :=
  fun q => if q = path then some (save_tokens_blob s) else fs q

/-- `load_tokens` (lines 238-247): return unchanged when the path does not
exist, else overwrite the four fields from the blob. -/
def load_tokens (fs : String → Option TokenBlob) (path : String)
    (s : ClientState) : ClientState :=
  match fs path with
  | none => s
  | some b => load_tokens_blob b s

/-! Concrete fixtures used by witnesses and counterexamples. -/

/-- A decode oracle whose every decode raises. -/
def jd0 : String → JwtResult := fun _ => JwtResult.decodeError

/-- A decode oracle whose payload never carries an `exp` claim. -/
def jdNoExp : String → JwtResult := fun _ => JwtResult.payload none

/-- A decode oracle whose payload carries the (falsy) claim `exp = 0`. -/
def jdExp0 : String → JwtResult := fun _ => JwtResult.payload (some 0)

/-- A decode oracle whose payload carries the claim `exp = 3600`. -/
def jdExp3600 : String → JwtResult := fun _ => JwtResult.payload (some 3600)

/-- A freshly constructed client: all optional fields `None`. -/
def cs0 : ClientState :=
  { username := "u", password := "p", device_serial_number := "SN1"
    api_base_url := "https://api.example.com/v1"
    access_token := none, refresh_token := none, user_id := none
    access_expires_at := none, device_id := none }

/-- A client holding an old access token with derived expiry 100. -/
def csExp100 : ClientState :=
  { cs0 with access_token := some "old", access_expires_at := some 100 }

/-- A response fixture carrying only a status code. -/
def mkResp (status : Nat) : Response :=
  { status := status, text := "body", access_token_field := none
    refresh_token_field := none, user_id_field := none, devices := [] }

/-- Claim C1 failing input: refresh token held, access token past its
derived expiry (expiry 10, current time 100). -/
def stC1 : St :=
  { cs := { cs0 with access_token := some "at", refresh_token := some "rt",
                     access_expires_at := some 10 }
    env := [], trace := [] }

/-- Claim C2 failing input: valid access token, refresh token held, and a
transport that answers 401 and then 200. -/
def stC2 : St :=
  { cs := { cs0 with access_token := some "at", refresh_token := some "rt" }
    env := [NetResult.ok (mkResp 401), NetResult.ok (mkResp 200)], trace := [] }

/-- Claim C3 counterexample input: valid access token, no refresh token,
and a transport that answers 201. -/
def stC3 : St :=
  { cs := { cs0 with access_token := some "at" }
    env := [NetResult.ok (mkResp 201)], trace := [] }

/-- A blob with the `access_token` key missing and the other keys present. -/
def blobMissingAccess : TokenBlob :=
  { access_token_entry := none, refresh_token_entry := some (some "r")
    user_id_entry := some none, access_expires_at_entry := some (some 5) }

/-- A valid session about to receive a 404. -/
def stW404 : St :=
  { cs := { cs0 with access_token := some "at" }
    env := [NetResult.ok (mkResp 404)], trace := [] }

/-- A device whose serial matches the configured "SN1". -/
def devA : Device := { id := "dev-1", serial_number_value := some "SN1" }

/-- A device with a different serial. -/
def devB : Device := { id := "dev-2", serial_number_value := some "SN2" }

/-- A 200 listing response carrying `devB` then `devA`. -/
def respDevs : Response :=
  { status := 200, text := "body", access_token_field := none
    refresh_token_field := none, user_id_field := none
    devices := [devB, devA] }

/-- A valid session whose next answer is the device listing. -/
def stC7 : St :=
  { cs := { cs0 with access_token := some "at" }
    env := [NetResult.ok respDevs], trace := [] }

/-- A valid session configured with serial "SNX", which no listed device
carries. -/
def stC7none : St :=
  { cs := { cs0 with access_token := some "at", device_serial_number := "SNX" }
    env := [NetResult.ok respDevs], trace := [] }

/-- A valid session with the device id already cached. -/
def stC9 : St :=
  { cs := { cs0 with access_token := some "at", device_id := some "dev-1" }
    env := [NetResult.ok (mkResp 200)], trace := [] }

/-! Helper lemmas shared by several claim theorems. -/

/-- A truthy access token with unknown expiry is never expired by time. -/
theorem is_token_expired_valid (now : Int) (s : ClientState)
    (hat : truthyStr s.access_token = true) (hexp : s.access_expires_at = none) :
    is_token_expired now s = false := by
  simp [is_token_expired, hat, hexp]

/-- With an unexpired token, `_ensure_authenticated` is the identity. -/
theorem ensure_authenticated_valid (jd : String → JwtResult) (now : Int) (st : St)
    (h : is_token_expired now st.cs = false) :
    ensure_authenticated jd now st = (Except.ok (), st) := by
  simp [ensure_authenticated, h]

/-- A transport call consumes the head of the pending results. -/
theorem netCall_cons (c : NetCall) (st : St) (r : NetResult) (rest : List NetResult)
    (henv : st.env = r :: rest) :
    netCall c st = (r, { st with env := rest, trace := st.trace ++ [c] }) := by
  simp [netCall, henv]

/-- `raise_for_status` never touches the machine state. -/
theorem check_status_snd (r : Response) (st : St) : (check_status r st).2 = st := by
  unfold check_status
  split_ifs <;> rfl

/-- A 200 passes `raise_for_status` untouched. -/
theorem check_status_200 (r : Response) (st : St) (h : r.status = 200) :
    check_status r st = (Except.ok r, st) := by
  simp [check_status, h]

/-- With a valid token and no refresh token, `_request` is one transport
call followed by `raise_for_status`. -/
theorem request_no_recovery (jd : String → JwtResult) (now : Int)
    (method path : String) (body : Option Payload) (st : St) (r : Response)
    (rest : List NetResult)
    (hat : truthyStr st.cs.access_token = true)
    (hexp : st.cs.access_expires_at = none)
    (hrt : st.cs.refresh_token = none)
    (henv : st.env = NetResult.ok r :: rest) :
    request jd now method path body st =
      check_status r
        { st with
          env := rest
          trace := st.trace ++ [NetCall.httpReq method (resolve_url st.cs.api_base_url path) body] } := by
  have h0 := ensure_authenticated_valid jd now st (is_token_expired_valid now st.cs hat hexp)
  have h1 := netCall_cons (NetCall.httpReq method (resolve_url st.cs.api_base_url path) body)
    st (NetResult.ok r) rest henv
  simp [request, h0, h1, hrt, truthyStr]

/-- Claim C10: calling `load_tokens` with a path that does not exist
returns without raising and leaves every field of the client - the four
token fields included - exactly unchanged. -/
theorem C10_load_tokens_missing_path (fs : String → Option TokenBlob)
    (path : String) (s : ClientState) (h : fs path = none) :
    load_tokens fs path s = s := by
  simp [load_tokens, h]

/-- Witness for C10: an empty filesystem and a concrete client. -/
theorem C10_load_tokens_missing_path_witness :
    load_tokens (fun _ => none) "tokens.json" cs0 = cs0 :=
  C10_load_tokens_missing_path (fun _ => none) "tokens.json" cs0 rfl

/-- Claim C8: with no refresh token held, the refresh operation fails
immediately with `IquaSoftenerException` and the full machine state -
pending environment and call trace included - is untouched, so zero
network calls are made before the failure. -/
theorem C8_refresh_without_token (jd : String → JwtResult) (st : St)
    (h : st.cs.refresh_token = none) :
    refresh_token_method jd st =
      (Except.error (PyError.iqua "No refresh token available"), st) := by
  simp [refresh_token_method, h, truthyStr]

/-- Witness for C8: a fresh client with an empty environment. -/
theorem C8_refresh_without_token_witness :
    refresh_token_method jd0 { cs := cs0, env := [], trace := [] } =
      (Except.error (PyError.iqua "No refresh token available"),
       { cs := cs0, env := [], trace := [] }) :=
  C8_refresh_without_token jd0 { cs := cs0, env := [], trace := [] } rfl

/-- Claim C6: saving and then restoring the token state reproduces the
client exactly, and restoring from a blob yields `none` for exactly the
missing keys while present keys are taken verbatim. -/
theorem C6_token_round_trip :
    (∀ (fs : String → Option TokenBlob) (path : String) (s : ClientState),
      load_tokens (save_tokens fs path s) path s = s) ∧
    (∀ (b : TokenBlob) (s : ClientState),
      (b.access_token_entry = none → (load_tokens_blob b s).access_token = none) ∧
      (∀ v, b.access_token_entry = some v → (load_tokens_blob b s).access_token = v) ∧
      (b.refresh_token_entry = none → (load_tokens_blob b s).refresh_token = none) ∧
      (∀ v, b.refresh_token_entry = some v → (load_tokens_blob b s).refresh_token = v) ∧
      (b.user_id_entry = none → (load_tokens_blob b s).user_id = none) ∧
      (∀ v, b.user_id_entry = some v → (load_tokens_blob b s).user_id = v) ∧
      (b.access_expires_at_entry = none → (load_tokens_blob b s).access_expires_at = none) ∧
      (∀ v, b.access_expires_at_entry = some v → (load_tokens_blob b s).access_expires_at = v)) := by
  constructor
  · intro fs path s
    simp [load_tokens, save_tokens, save_tokens_blob, load_tokens_blob, blob_get]
  · intro b s
    exact ⟨fun h => by simp [load_tokens_blob, blob_get, h],
           fun v h => by simp [load_tokens_blob, blob_get, h],
           fun h => by simp [load_tokens_blob, blob_get, h],
           fun v h => by simp [load_tokens_blob, blob_get, h],
           fun h => by simp [load_tokens_blob, blob_get, h],
           fun v h => by simp [load_tokens_blob, blob_get, h],
           fun h => by simp [load_tokens_blob, blob_get, h],
           fun v h => by simp [load_tokens_blob, blob_get, h]⟩

/-- Witness for C6: a concrete round trip, and a blob with `access_token`
missing and `refresh_token` present. -/
theorem C6_token_round_trip_witness :
    load_tokens (save_tokens (fun _ => none) "p" csExp100) "p" csExp100 = csExp100 ∧
    (load_tokens_blob blobMissingAccess cs0).access_token = none ∧
    (load_tokens_blob blobMissingAccess cs0).refresh_token = some "r" :=
  ⟨C6_token_round_trip.1 (fun _ => none) "p" csExp100,
   (C6_token_round_trip.2 blobMissingAccess cs0).1 rfl,
   (C6_token_round_trip.2 blobMissingAccess cs0).2.2.2.1 (some "r") rfl⟩

/-- Counterexample to claim C4 as stated: a token that decodes to a payload
with no `exp` claim does NOT clear the stored derived expiry - the stale
value 100 persists, and the state is still judged expired by time at 200. -/
theorem C4_counterexample :
    (set_tokens jdNoExp (some "tok") (some "r") csExp100).access_expires_at = some 100 ∧
    is_token_expired 200 (set_tokens jdNoExp (some "tok") (some "r") csExp100) = true := by
  exact ⟨rfl, by decide⟩

/-- Claim C4 amended: an absent or undecodable access token clears the
derived expiry, but a decodable payload with no `exp` claim leaves the
previously stored expiry unchanged. -/
theorem C4_amended_set_tokens (jd : String → JwtResult) (a : String)
    (rt : Option String) (s : ClientState) :
    (set_tokens jd none rt s).access_expires_at = none ∧
    (jd a = JwtResult.decodeError →
      (set_tokens jd (some a) rt s).access_expires_at = none) ∧
    (jd a = JwtResult.payload none →
      (set_tokens jd (some a) rt s).access_expires_at = s.access_expires_at) := by
  refine ⟨rfl, fun h => by simp [set_tokens, h], fun h => by simp [set_tokens, h]⟩

/-- Witness for C4 amended: an undecodable token clears the expiry, a
payload without `exp` keeps the stale 100. -/
theorem C4_amended_set_tokens_witness :
    (set_tokens jd0 (some "t") none csExp100).access_expires_at = none ∧
    (set_tokens jdNoExp (some "t") none csExp100).access_expires_at = some 100 := by
  constructor
  · exact (C4_amended_set_tokens jd0 "t" none csExp100).2.1 rfl
  · have h := (C4_amended_set_tokens jdNoExp "t" none csExp100).2.2 rfl
    rw [h]
    rfl

/-- Counterexample to claim C5 as stated: a numeric claim `exp = 0` is
falsy in Python, so the stored expiry stays at the stale 100 instead of
becoming `0 - 60`. -/
theorem C5_counterexample :
    (set_tokens jdExp0 (some "tok") none csExp100).access_expires_at = some 100 ∧
    ¬ (set_tokens jdExp0 (some "tok") none csExp100).access_expires_at = some ((0 : Int) - 60) := by
  exact ⟨rfl, by decide⟩

/-- Claim C5 amended: a NONZERO numeric `exp` claim stores expiry
`exp - 60`; an absent access token is judged expired; a truthy token with
unknown expiry is valid; with a known expiry, expired exactly when
`now >= expiry`; and the `exp = now + 3600` example holds. -/
theorem C5_amended_expiry (jd : String → JwtResult) (a : String)
    (rt : Option String) (s : ClientState) (e now : Int) :
    (jd a = JwtResult.payload (some e) → e ≠ 0 →
      (set_tokens jd (some a) rt s).access_expires_at = some (e - 60)) ∧
    (s.access_token = none → is_token_expired now s = true) ∧
    (truthyStr s.access_token = true → s.access_expires_at = none →
      is_token_expired now s = false) ∧
    (∀ x : Int, truthyStr s.access_token = true → s.access_expires_at = some x →
      (is_token_expired now s = true ↔ now ≥ x)) ∧
    (a ≠ "" → jd a = JwtResult.payload (some (now + 3600)) → now + 3600 ≠ 0 →
      (set_tokens jd (some a) rt s).access_expires_at = some (now + 3540) ∧
      is_token_expired (now + 3541) (set_tokens jd (some a) rt s) = true) := by
  refine ⟨?_, ?_, ?_, ?_, ?_⟩
  · intro h he
    simp [set_tokens, h, he]
  · intro h
    simp [is_token_expired, h, truthyStr]
  · intro h1 h2
    exact is_token_expired_valid now s h1 h2
  · intro x h1 h2
    simp [is_token_expired, h1, h2]
  · intro ha hjd hnz
    constructor
    · simp [set_tokens, hjd, hnz]
      omega
    · simp [set_tokens, hjd, hnz, is_token_expired, truthyStr, ha]
      omega

/-- Witness for C5 amended: `now = 0`, `exp = 3600` gives expiry 3540 and
the token counts as expired at 3541. -/
theorem C5_amended_expiry_witness :
    (set_tokens jdExp3600 (some "t") none cs0).access_expires_at = some ((0 : Int) + 3540) ∧
    is_token_expired ((0 : Int) + 3541) (set_tokens jdExp3600 (some "t") none cs0) = true :=
  (C5_amended_expiry jdExp3600 "t" none cs0 3600 0).2.2.2.2 (by decide) (by decide) (by decide)

/-- Code-bug evidence for claim C1: the claim describes the intended
refresh-then-login fallback, but at a state with a refresh token held and
the access token past its derived expiry (expiry 10, time 100) the
embedded `_ensure_authenticated` raises `TypeError` - the instance
attribute `_refresh_token` shadows the method of the same name - so no
refresh POST, no login POST, and no fallback happen: the machine state is
returned untouched with an empty trace. -/
theorem C1_shadowed_refresh_raises_typeerror :
    request jd0 100 "GET" "/devices" none stC1 =
      (Except.error (PyError.typeErr "str object is not callable"), stC1) := rfl

/-- Code-bug evidence for claim C2: a valid session receives a 401 while a
refresh token is held; the recovery block raises `TypeError` instead of
refreshing, so no login and no retry happen - exactly one transport call
is on the trace although a 200 was waiting in the environment. -/
theorem C2_shadowed_recovery_raises_typeerror :
    (request jd0 0 "GET" "/devices" none stC2).1 =
      Except.error (PyError.typeErr "str object is not callable") ∧
    (request jd0 0 "GET" "/devices" none stC2).2.trace =
      [NetCall.httpReq "GET" "https://api.example.com/v1/devices" none] ∧
    (request jd0 0 "GET" "/devices" none stC2).2.env =
      [NetResult.ok (mkResp 200)] :=
  ⟨rfl, rfl, rfl⟩

/-- Counterexample to claim C3 as stated: a final status 201 (which is not
200) is returned as a success instead of raising an error carrying 201,
because `raise_for_status` only raises for statuses 400-599. -/
theorem C3_counterexample :
    (request jd0 0 "GET" "/devices" none stC3).1 = Except.ok (mkResp 201) ∧
    (mkResp 201).status ≠ 200 :=
  ⟨rfl, by decide⟩

/-- Claim C3 amended: after any 401 recovery, a final status in 400-599
raises an error carrying that status, a final status 200 returns the
response, and any other non-200 status is returned without raising (the
command operations then raise their own error on non-200). -/
theorem C3_amended_final_status (jd : String → JwtResult) (now : Int)
    (method path : String) (body : Option Payload) (st : St) (r : Response)
    (rest : List NetResult)
    (hat : truthyStr st.cs.access_token = true)
    (hexp : st.cs.access_expires_at = none)
    (hrt : st.cs.refresh_token = none)
    (henv : st.env = NetResult.ok r :: rest) :
    (400 ≤ r.status ∧ r.status ≤ 599 →
      (request jd now method path body st).1 =
        Except.error (PyError.httpStatusErr r.status r.text)) ∧
    (r.status = 200 → (request jd now method path body st).1 = Except.ok r) ∧
    (r.status ≠ 200 → r.status < 400 ∨ 599 < r.status →
      (request jd now method path body st).1 = Except.ok r) := by
  have hreq := request_no_recovery jd now method path body st r rest hat hexp hrt henv
  refine ⟨?_, ?_, ?_⟩
  · rintro ⟨h4, h5⟩
    have h200 : r.status ≠ 200 := by omega
    rw [hreq]
    simp [check_status, h200, h4, h5]
  · intro h200
    rw [hreq]
    simp [check_status, h200]
  · intro h200 hout
    have hin : ¬ (400 ≤ r.status ∧ r.status ≤ 599) := by omega
    rw [hreq]
    simp [check_status, h200, hin]

/-- Witness for C3 amended: a 404 answer surfaces as an error carrying
status 404. -/
theorem C3_amended_final_status_witness :
    (request jd0 0 "GET" "/x" none stW404).1 =
      Except.error (PyError.httpStatusErr 404 "body") :=
  (C3_amended_final_status jd0 0 "GET" "/x" none stW404 (mkResp 404) []
    (by decide) rfl rfl rfl).1 (by decide)

/-- When the filter keeps exactly one element, the first-match search finds
that element. -/
theorem find_of_filter_eq_singleton {α : Type} (p : α → Bool) (l : List α)
    (d : α) (h : l.filter p = [d]) : l.find? p = some d := by
  induction l with
  | nil => simp at h
  | cons a t ih =>
    by_cases hpa : p a = true
    · rw [List.filter_cons, if_pos hpa] at h
      rw [List.find?_cons_of_pos _ hpa]
      rw [(List.cons_eq_cons.mp h).1]
    · rw [List.filter_cons, if_neg hpa] at h
      rw [List.find?_cons_of_neg _ hpa]
      exact ih h

/-- When the filter keeps nothing, the first-match search finds nothing. -/
theorem find_eq_none_of_filter_eq_nil {α : Type} (p : α → Bool) (l : List α)
    (h : l.filter p = []) : l.find? p = none := by
  rw [List.find?_eq_none]
  intro x hx
  exact (List.filter_eq_nil_iff.mp h) x hx

/-- A cache hit answers `_get_device_id` without touching anything. -/
theorem get_device_id_cached (jd : String → JwtResult) (now : Int) (st : St)
    (d0 : String) (h : st.cs.device_id = some d0) :
    get_device_id jd now st = (Except.ok d0, st) := by
  simp [get_device_id, h]

/-- With a valid token, no refresh token, and a 200 listing at the head of
the environment, `_get_devices` returns the parsed device list. -/
theorem get_devices_ok (jd : String → JwtResult) (now : Int) (st : St)
    (r : Response) (rest : List NetResult)
    (hat : truthyStr st.cs.access_token = true)
    (hexp : st.cs.access_expires_at = none)
    (hrt : st.cs.refresh_token = none)
    (henv : st.env = NetResult.ok r :: rest)
    (h200 : r.status = 200) :
    get_devices jd now st =
      (Except.ok r.devices,
       { st with
         env := rest
         trace := st.trace ++ [NetCall.httpReq "GET" (resolve_url st.cs.api_base_url "/devices") none] }) := by
  have hreq := request_no_recovery jd now "GET" "/devices" none st r rest hat hexp hrt henv
  simp [get_devices, hreq, check_status, h200]

/-- Claim C7: with exactly one listed device matching the configured
serial, resolution returns that device id and caches it; with zero matches
it raises the not-found error; and a cached id is returned with the whole
machine state untouched - the device list is not consulted again, whatever
the environment now holds. -/
theorem C7_device_id_resolution :
    (∀ (jd : String → JwtResult) (now : Int) (st : St) (r : Response)
       (rest : List NetResult) (d : Device),
      truthyStr st.cs.access_token = true → st.cs.access_expires_at = none →
      st.cs.refresh_token = none → st.cs.device_id = none →
      st.env = NetResult.ok r :: rest → r.status = 200 →
      r.devices.filter (fun dv => dv.serial_number_value = some st.cs.device_serial_number) = [d] →
      (get_device_id jd now st).1 = Except.ok d.id ∧
      (get_device_id jd now st).2.cs.device_id = some d.id) ∧
    (∀ (jd : String → JwtResult) (now : Int) (st : St) (r : Response)
       (rest : List NetResult),
      truthyStr st.cs.access_token = true → st.cs.access_expires_at = none →
      st.cs.refresh_token = none → st.cs.device_id = none →
      st.env = NetResult.ok r :: rest → r.status = 200 →
      r.devices.filter (fun dv => dv.serial_number_value = some st.cs.device_serial_number) = [] →
      (get_device_id jd now st).1 =
        Except.error (PyError.iqua ("Device with serial number " ++ st.cs.device_serial_number ++ " not found"))) ∧
    (∀ (jd : String → JwtResult) (now : Int) (st : St) (d0 : String),
      st.cs.device_id = some d0 →
      get_device_id jd now st = (Except.ok d0, st)) := by
  refine ⟨?_, ?_, ?_⟩
  · intro jd now st r rest d hat hexp hrt hdid henv h200 hfilter
    have hdevs := get_devices_ok jd now st r rest hat hexp hrt henv h200
    have hfind := find_of_filter_eq_singleton _ _ _ hfilter
    constructor
    · simp [get_device_id, hdid, hdevs, hfind]
    · simp [get_device_id, hdid, hdevs, hfind]
  · intro jd now st r rest hat hexp hrt hdid henv h200 hfilter
    have hdevs := get_devices_ok jd now st r rest hat hexp hrt henv h200
    have hfind := find_eq_none_of_filter_eq_nil _ _ hfilter
    simp [get_device_id, hdid, hdevs, hfind]
  · intro jd now st d0 h
    exact get_device_id_cached jd now st d0 h

/-- Witness for C7: in the listing `[devB, devA]` only `devA` carries the
configured serial "SN1" and its id "dev-1" is returned and cached; with
serial "SNX" resolution fails; a cached "dev-9" wins over an environment
whose listing would answer "dev-1". -/
theorem C7_device_id_resolution_witness :
    (get_device_id jd0 0 stC7).1 = Except.ok devA.id ∧
    (get_device_id jd0 0 stC7).2.cs.device_id = some devA.id ∧
    (get_device_id jd0 0 stC7none).1 =
      Except.error (PyError.iqua ("Device with serial number " ++ stC7none.cs.device_serial_number ++ " not found")) ∧
    get_device_id jd0 0 { stC7 with cs := { stC7.cs with device_id := some "dev-9" } } =
      (Except.ok "dev-9", { stC7 with cs := { stC7.cs with device_id := some "dev-9" } }) :=
  ⟨(C7_device_id_resolution.1 jd0 0 stC7 respDevs [] devA (by decide) rfl rfl rfl rfl rfl (by decide)).1,
   (C7_device_id_resolution.1 jd0 0 stC7 respDevs [] devA (by decide) rfl rfl rfl rfl rfl (by decide)).2,
   C7_device_id_resolution.2.1 jd0 0 stC7none respDevs [] (by decide) rfl rfl rfl rfl rfl (by decide),
   C7_device_id_resolution.2.2 jd0 0 _ "dev-9" rfl⟩

/-- Claim C9: an integer state outside `{0, 1}` raises `ValueError` with
the whole machine state - token fields, device-id cache, environment and
trace - untouched, so before any authentication or HTTP call; state 1
sends the command payload `function = water_shutoff_valve, action = close`
and state 0 sends `action = open`. -/
theorem C9_valve_validation_and_payload :
    (∀ (jd : String → JwtResult) (now v : Int) (st : St), v ≠ 0 → v ≠ 1 →
      set_water_shutoff_valve jd now v st =
        (Except.error (PyError.valueErr "Invalid state for water shut off valve (should be 0 or 1)."), st)) ∧
    (∀ (jd : String → JwtResult) (now : Int) (st : St) (did : String)
       (r : Response) (rest : List NetResult),
      st.cs.device_id = some did → truthyStr st.cs.access_token = true →
      st.cs.access_expires_at = none → st.cs.refresh_token = none →
      st.env = NetResult.ok r :: rest →
      (set_water_shutoff_valve jd now 1 st).2.trace =
        st.trace ++ [NetCall.httpReq "PUT"
          (resolve_url st.cs.api_base_url ("/devices/" ++ did ++ "/command"))
          (some { function := "water_shutoff_valve", action := "close" })]) ∧
    (∀ (jd : String → JwtResult) (now : Int) (st : St) (did : String)
       (r : Response) (rest : List NetResult),
      st.cs.device_id = some did → truthyStr st.cs.access_token = true →
      st.cs.access_expires_at = none → st.cs.refresh_token = none →
      st.env = NetResult.ok r :: rest →
      (set_water_shutoff_valve jd now 0 st).2.trace =
        st.trace ++ [NetCall.httpReq "PUT"
          (resolve_url st.cs.api_base_url ("/devices/" ++ did ++ "/command"))
          (some { function := "water_shutoff_valve", action := "open" })]) := by
  refine ⟨?_, ?_, ?_⟩
  · intro jd now v st h0 h1
    simp [set_water_shutoff_valve, h0, h1]
  · intro jd now st did r rest hdid hat hexp hrt henv
    have hdev := get_device_id_cached jd now st did hdid
    have hreq := request_no_recovery jd now "PUT" ("/devices/" ++ did ++ "/command")
      (some { function := "water_shutoff_valve", action := "close" }) st r rest hat hexp hrt henv
    have hsnd := check_status_snd r
      { st with
        env := rest
        trace := st.trace ++ [NetCall.httpReq "PUT"
          (resolve_url st.cs.api_base_url ("/devices/" ++ did ++ "/command"))
          (some { function := "water_shutoff_valve", action := "close" })] }
    rcases hres : check_status r
      { st with
        env := rest
        trace := st.trace ++ [NetCall.httpReq "PUT"
          (resolve_url st.cs.api_base_url ("/devices/" ++ did ++ "/command"))
          (some { function := "water_shutoff_valve", action := "close" })] } with ⟨res, st2⟩
    rw [hres] at hsnd
    simp only [Prod.snd] at hsnd
    cases res with
    | error e => simp [set_water_shutoff_valve, hdev, hreq, hres, hsnd]
    | ok rr =>
      simp [set_water_shutoff_valve, hdev, hreq, hres]
      split_ifs <;> simp [hsnd]
  · intro jd now st did r rest hdid hat hexp hrt henv
    have hdev := get_device_id_cached jd now st did hdid
    have hreq := request_no_recovery jd now "PUT" ("/devices/" ++ did ++ "/command")
      (some { function := "water_shutoff_valve", action := "open" }) st r rest hat hexp hrt henv
    have hsnd := check_status_snd r
      { st with
        env := rest
        trace := st.trace ++ [NetCall.httpReq "PUT"
          (resolve_url st.cs.api_base_url ("/devices/" ++ did ++ "/command"))
          (some { function := "water_shutoff_valve", action := "open" })] }
    rcases hres : check_status r
      { st with
        env := rest
        trace := st.trace ++ [NetCall.httpReq "PUT"
          (resolve_url st.cs.api_base_url ("/devices/" ++ did ++ "/command"))
          (some { function := "water_shutoff_valve", action := "open" })] } with ⟨res, st2⟩
    rw [hres] at hsnd
    simp only [Prod.snd] at hsnd
    cases res with
    | error e => simp [set_water_shutoff_valve, hdev, hreq, hres, hsnd]
    | ok rr =>
      simp [set_water_shutoff_valve, hdev, hreq, hres]
      split_ifs <;> simp [hsnd]

/-- Witness for C9: state 5 is rejected with the state untouched; with the
cached id "dev-1", state 1 PUTs the close payload and state 0 the open
payload to the command url. -/
theorem C9_valve_validation_and_payload_witness :
    set_water_shutoff_valve jd0 0 5 { cs := cs0, env := [], trace := [] } =
      (Except.error (PyError.valueErr "Invalid state for water shut off valve (should be 0 or 1)."),
       { cs := cs0, env := [], trace := [] }) ∧
    (set_water_shutoff_valve jd0 0 1 stC9).2.trace =
      [NetCall.httpReq "PUT" "https://api.example.com/v1/devices/dev-1/command"
        (some { function := "water_shutoff_valve", action := "close" })] ∧
    (set_water_shutoff_valve jd0 0 0 stC9).2.trace =
      [NetCall.httpReq "PUT" "https://api.example.com/v1/devices/dev-1/command"
        (some { function := "water_shutoff_valve", action := "open" })] := by
  refine ⟨?_, ?_, ?_⟩
  · exact C9_valve_validation_and_payload.1 jd0 0 5 { cs := cs0, env := [], trace := [] }
      (by decide) (by decide)
  · have h := C9_valve_validation_and_payload.2.1 jd0 0 stC9 "dev-1" (mkResp 200) []
      rfl (by decide) rfl rfl rfl
    rw [h]
    rfl
  · have h := C9_valve_validation_and_payload.2.2 jd0 0 stC9 "dev-1" (mkResp 200) []
      rfl (by decide) rfl rfl rfl
    rw [h]
    rfl
